import Mathlib

/-!
Shallow embedding of the Smart-attendance repository's core protocol
(attendance admission, device binding, session lifecycle, login lock),
translated from `src/backend/server.js`, `src/backend/models/*.js`,
`src/frontend/components/TeacherDashboard.tsx` and the `src/unnamed/part_007`
variant of the server.

The document store (MongoDB via mongoose) is modelled as in-memory lists of
records; `findOne` becomes `List.find?`, a mongoose `doc.save()` becomes a
replacement of the first record matching the document's unique key, and
`updateOne` becomes an update of the first matching record.  Machine dates
are abstracted as natural numbers (`Date.now()` / `new Date()` become a
`now : Nat` parameter).  A field that mongoose leaves undefined is an
`Option` `none`; JavaScript truthiness on such string fields treats both
`none` and the empty string as falsy.
-/

namespace SmartAttendance

/-- `src/backend/models/Student.js`: rollNumber (unique), name, password,
department, section, phone, deviceId (the bound physical device, optional). -/
structure Student where
  rollNumber : String
  name : String
  password : String
  department : Option String
  «section» : Option String
  phone : Option String
  deviceId : Option String
  deriving DecidableEq

/-- `src/backend/models/Session.js`, `AttendanceRecordSchema`. -/
structure AttendanceRecord where
  rollNumber : String
  name : Option String
  department : Option String
  «section» : Option String
  timestamp : Nat
  deviceId : Option String
  deriving DecidableEq

/-- `src/backend/models/Session.js`, `SessionSchema`: id (unique), courseName,
startTime, teacherId, isActive, embedded attendance list. -/
structure Session where
  id : String
  courseName : String
  startTime : Nat
  teacherId : String
  isActive : Bool
  attendance : List AttendanceRecord
  deriving DecidableEq

/-- The store state the admission controller reads and writes: the Student
collection and the Session collection. -/
structure DB where
  students : List Student
  sessions : List Session
  deriving DecidableEq

/-- The body of `POST /api/sessions/:id/mark`:
`const { rollNumber, deviceId, name, department, section } = req.body`. -/
structure MarkRequest where
  rollNumber : String
  deviceId : String
  name : Option String
  department : Option String
  «section» : Option String
  deriving DecidableEq

/-- The failure reasons of the mark endpoint, plus success and the catch-all
internal error of the `catch` block. -/
inductive MarkResult where
  | success
  | sessionNotActive
  | alreadyMarked
  | unknownIdentity
  | deviceConflict
  | deviceAlreadyUsed
  | internalError
  deriving DecidableEq

/-- JavaScript `s.trim()`, expressed on the string's character list (the
core library's `String.trim` is compiled code that terms cannot evaluate
through). -/
def trimStr (s : String) : String :=
  ⟨((s.data.dropWhile Char.isWhitespace).reverse.dropWhile Char.isWhitespace).reverse⟩

/-- JavaScript `s.toUpperCase()` on the character list. -/
def upperStr (s : String) : String := ⟨s.data.map Char.toUpper⟩

/-- `rollNumber.trim().toUpperCase()`. -/
def normalizeId (s : String) : String := upperStr (trimStr s)

/-- MongoDB `updateOne` / a mongoose `doc.save()` against a collection:
replace the first record matching the key predicate. -/
def updateFirst (p : α → Bool) (f : α → α) : List α → List α
  | [] => []
  | x :: xs => if p x then f x :: xs else x :: updateFirst p f xs

/-- `Session.findOne({ id, isActive: true })`. -/
def findActiveSession (db : DB) (sid : String) : Option Session :=
  db.sessions.find? (fun s => s.id == sid && s.isActive)

/-- `Student.findOne({ rollNumber: roll })`. -/
def findStudent (db : DB) (roll : String) : Option Student :=
  db.students.find? (fun st => st.rollNumber == roll)

/-- `Student.findOne({ deviceId, rollNumber: { $ne: roll } })`. -/
def findOtherWithDevice (db : DB) (deviceId roll : String) : Option Student :=
  db.students.find? (fun st => st.deviceId == some deviceId && st.rollNumber != roll)

/-- `student.deviceId = deviceId; await student.save()`: bind the device on
the student record loaded by roll number (unique key). -/
def bindDevice (db : DB) (roll deviceId : String) : DB :=
  { db with
      students := updateFirst (fun st => st.rollNumber == roll)
        (fun st => { st with deviceId := some deviceId }) db.students }

/-- `await session.save()`: persist the loaded session document (addressed by
its unique `id`). -/
def saveSession (db : DB) (s : Session) : DB :=
  { db with sessions := updateFirst (fun t => t.id == s.id) (fun _ => s) db.sessions }

/-- JavaScript truthiness of a possibly-undefined string field: undefined and
the empty string are both falsy. -/
def jsFalsy : Option String → Bool
  | some s => s == ""
  | none => true

/-- `if (student.deviceId && student.deviceId !== deviceId)`: the stored
token is truthy (set and non-empty) and differs from the presented one. -/
def deviceMismatch (st : Student) (deviceId : String) : Bool :=
  match st.deviceId with
  | some d => d != "" && d != deviceId
  | none => false

/-- `POST /api/sessions/:id/mark` of `src/backend/server.js` (lines 196-213),
with two oracles for store-level failures of the two commit writes: when
`studentSaveFails`, `student.save()` throws (the binding is not persisted and
the catch block answers 500); when `sessionSaveFails`, `session.save()`
throws (the in-memory push is lost, but a binding already saved persists). -/
def markAttendanceF (db : DB) (sid : String) (req : MarkRequest) (now : Nat)
    (studentSaveFails sessionSaveFails : Bool) : MarkResult × DB :=
  match findActiveSession db sid with
  | none => (.sessionNotActive, db)
  | some session =>
    let roll := normalizeId req.rollNumber
    if session.attendance.any (fun r => r.rollNumber == roll) then
      (.alreadyMarked, db)
    else
      match findStudent db roll with
      | none => (.unknownIdentity, db)
      | some student =>
        if deviceMismatch student req.deviceId then
          (.deviceConflict, db)
        else if (findOtherWithDevice db req.deviceId roll).isSome then
          (.deviceAlreadyUsed, db)
        else if jsFalsy student.deviceId && studentSaveFails then
          (.internalError, db)
        else
          let db1 := if jsFalsy student.deviceId then bindDevice db roll req.deviceId else db
          if sessionSaveFails then
            (.internalError, db1)
          else
            (.success, saveSession db1
              { session with attendance := session.attendance ++
                  [{ rollNumber := roll, name := req.name, department := req.department,
                     «section» := req.«section», timestamp := now,
                     deviceId := some req.deviceId }] })

/-- The mark endpoint when the store does not fail. -/
def markAttendance (db : DB) (sid : String) (req : MarkRequest) (now : Nat) :
    MarkResult × DB :=
  markAttendanceF db sid req now false false

/-- The HTTP status `src/backend/server.js` answers for each mark outcome. -/
def httpStatusOf : MarkResult → Nat
  | .success => 200
  | .sessionNotActive => 404
  | .alreadyMarked => 400
  | .unknownIdentity => 404
  | .deviceConflict => 403
  | .deviceAlreadyUsed => 403
  | .internalError => 500

/-- Modelled from the spec: the reference mapping of section 6 read with the
standard HTTP statuses of the named classes — not-found 404, conflict 409,
forbidden 403 (success 200, internal 500). -/
def specStatusOf : MarkResult → Nat
  | .success => 200
  | .sessionNotActive => 404
  | .alreadyMarked => 409
  | .unknownIdentity => 404
  | .deviceConflict => 403
  | .deviceAlreadyUsed => 403
  | .internalError => 500

/-- JavaScript `a || b` on possibly-undefined string fields: `a` wins unless
it is undefined or the empty string (both falsy). -/
def jsOr (a b : Option String) : Option String :=
  match a with
  | some s => if s = "" then b else some s
  | none => b

/-- `POST /api/sessions/:id/mark` of the `src/unnamed/part_007` server
variant (lines 222-240): same checks as the main controller, but the entry's
name is trimmed — a missing name throws a TypeError caught as 500, after the
device binding of line 235 already committed — and its department/section
fall back to the student record (`department || student.department`,
`section || student.section`). -/
def markAttendanceV (db : DB) (sid : String) (req : MarkRequest) (now : Nat) :
    MarkResult × DB :=
  match findActiveSession db sid with
  | none => (.sessionNotActive, db)
  | some session =>
    let roll := normalizeId req.rollNumber
    if session.attendance.any (fun r => r.rollNumber == roll) then
      (.alreadyMarked, db)
    else
      match findStudent db roll with
      | none => (.unknownIdentity, db)
      | some student =>
        if deviceMismatch student req.deviceId then
          (.deviceConflict, db)
        else if (findOtherWithDevice db req.deviceId roll).isSome then
          (.deviceAlreadyUsed, db)
        else
          let db1 := if jsFalsy student.deviceId then bindDevice db roll req.deviceId else db
          match req.name with
          | none => (.internalError, db1)
          | some nm =>
            (.success, saveSession db1
              { session with attendance := session.attendance ++
                  [{ rollNumber := roll, name := some (trimStr nm),
                     department := jsOr req.department student.department,
                     «section» := jsOr req.«section» student.«section»,
                     timestamp := now, deviceId := some req.deviceId }] })

/-- `POST /api/students/:id/reset-device`:
`Student.updateOne({ rollNumber: id.toUpperCase() }, { $unset: { deviceId: 1 } })`. -/
def resetDevice (db : DB) (idParam : String) : DB :=
  { db with
      students := updateFirst (fun st => st.rollNumber == upperStr idParam)
        (fun st => { st with deviceId := none }) db.students }

/-- `createSession` of `src/frontend/components/TeacherDashboard.tsx`
(lines 67-95): build a new active session for the issuer, deactivate every
session of the same issuer, and append the new one
(`allSessions = sessions.map(s => s.teacherId === auth.identifier ?
{ ...s, isActive: false } : s)`; `[...allSessions, newSession]`). -/
def openSession (sessions : List Session) (issuer courseName : String) (now : Nat) :
    List Session :=
  let newSession : Session :=
    { id := "session_" ++ toString now, courseName := courseName, startTime := now,
      teacherId := issuer, isActive := true, attendance := [] }
  (sessions.map (fun s => if s.teacherId == issuer then { s with isActive := false } else s))
    ++ [newSession]

/-- A sequence of Open calls, each `(issuer, label, now)`. -/
def openAll (sessions : List Session) (calls : List (String × String × Nat)) :
    List Session :=
  calls.foldl (fun acc c => openSession acc c.1 c.2.1 c.2.2) sessions

/-- A sequence of mark invocations, each
`(sessionId, request, now, studentSaveFails, sessionSaveFails)`;
only the resulting store state is kept. -/
def markAll (db : DB) (ops : List (String × MarkRequest × Nat × Bool × Bool)) : DB :=
  ops.foldl (fun d o => (markAttendanceF d o.1 o.2.1 o.2.2.1 o.2.2.2.1 o.2.2.2.2).2) db

/-! ### Login (`POST /api/auth/login`, `src/backend/server.js` lines 59-102) -/

/-- A record of the Teacher or Admin collection: identifier (unique), name,
password. -/
structure AuthUser where
  identifier : String
  name : String
  password : String
  deriving DecidableEq

/-- The collections the login endpoint consults. -/
structure AuthDB where
  students : List Student
  teachers : List AuthUser
  admins : List AuthUser
  deriving DecidableEq

/-- The login endpoint's outcomes: 400 missing fields, 403 system locked,
401 invalid credentials, 200 success with resolved name/role/identifier. -/
inductive LoginResult where
  | missingFields
  | systemLocked
  | invalidCredentials
  | success (name role identifier : String)
  deriving DecidableEq

/-- `POST /api/auth/login` of `src/backend/server.js`: students are rejected
while the lock is set before their credential lookup; the teacher portal
consults the Admin collection first (admins bypass the lock), then — only
when not locked — the Teacher collection.  `isLocked` is the store's
`system_settings.isLoginLocked` flag read at the top of the handler. -/
def login (db : AuthDB) (isLocked : Bool) (role identifier password : String) :
    LoginResult :=
  if identifier = "" ∨ password = "" then .missingFields
  else
    let idUpper := normalizeId identifier
    let passTrimmed := trimStr password
    if role = "STUDENT" then
      if isLocked then .systemLocked
      else
        match db.students.find? (fun s => s.rollNumber == idUpper && s.password == passTrimmed) with
        | some u => .success u.name "STUDENT" idUpper
        | none => .invalidCredentials
    else
      match db.admins.find? (fun u => u.identifier == idUpper && u.password == passTrimmed) with
      | some u => .success u.name "ADMIN" idUpper
      | none =>
        if isLocked then .systemLocked
        else
          match db.teachers.find? (fun u => u.identifier == idUpper && u.password == passTrimmed) with
          | some u => .success u.name "TEACHER" idUpper
          | none => .invalidCredentials

/-! ### Interleaved execution of two mark invocations

The handler is an async function whose `await` points let two requests
interleave.  Steps 1-5 are pure reads (`findOne`s and in-memory checks);
step 6 issues per-document updates (mongoose persists `student.deviceId = x`
as a `$set` on the student document and `attendance.push(entry)` as a `$push`
on the session document).  `markDecide` is the read/check phase against the
store state at read time; `commitWrites` applies the step-6 updates of one
handler to the store state at write time, using the values it read. -/

/-- What the read/check phase concluded: a rejection, or the loaded session
and student to commit against. -/
inductive MarkDecision where
  | reject (r : MarkResult)
  | commit («session» : Session) (student : Student) (roll : String)
  deriving DecidableEq

/-- Steps 1-5 of the mark handler, read against `db`. -/
def markDecide (db : DB) (sid : String) (req : MarkRequest) : MarkDecision :=
  match findActiveSession db sid with
  | none => .reject .sessionNotActive
  | some session =>
    let roll := normalizeId req.rollNumber
    if session.attendance.any (fun r => r.rollNumber == roll) then
      .reject .alreadyMarked
    else
      match findStudent db roll with
      | none => .reject .unknownIdentity
      | some student =>
        if deviceMismatch student req.deviceId then
          .reject .deviceConflict
        else if (findOtherWithDevice db req.deviceId roll).isSome then
          .reject .deviceAlreadyUsed
        else
          .commit session student roll

/-- Step 6 of the mark handler applied to the current store state: `$set` the
device on the student document when the loaded record had none, then `$push`
the entry onto the session document. -/
def commitWrites (db : DB) (req : MarkRequest) (now : Nat)
    («session» : Session) (student : Student) (roll : String) : DB :=
  let db1 := if jsFalsy student.deviceId then bindDevice db roll req.deviceId else db
  { db1 with
      sessions := updateFirst (fun t => t.id == «session».id)
        (fun t => { t with attendance := t.attendance ++
            [{ rollNumber := roll, name := req.name, department := req.department,
               «section» := req.«section», timestamp := now,
               deviceId := some req.deviceId }] }) db1.sessions }

/-- Two concurrent invocations scheduled read-read-write-write: both run
their read/check phase against the same store state (no lock or conditional
update prevents this), then each commits in turn. -/
def markPairRRWW (db : DB) (sid : String) (r1 r2 : MarkRequest) (now1 now2 : Nat) :
    MarkResult × MarkResult × DB :=
  match markDecide db sid r1, markDecide db sid r2 with
  | .reject a, .reject b => (a, b, db)
  | .reject a, .commit s2 st2 roll2 => (a, .success, commitWrites db r2 now2 s2 st2 roll2)
  | .commit s1 st1 roll1, .reject b => (.success, b, commitWrites db r1 now1 s1 st1 roll1)
  | .commit s1 st1 roll1, .commit s2 st2 roll2 =>
    (.success, .success,
      commitWrites (commitWrites db r1 now1 s1 st1 roll1) r2 now2 s2 st2 roll2)

/-! ### Concrete fixtures used by witnesses and counterexamples -/

/-- A student with no bound device and her own department/section on record. -/
def stAlice : Student :=
  { rollNumber := "A1", name := "Alice", password := "pw", department := some "CSE",
    «section» := some "B", phone := none, deviceId := none }

/-- A second student with no bound device. -/
def stBob : Student :=
  { rollNumber := "B1", name := "Bob", password := "pw", department := none,
    «section» := none, phone := none, deviceId := none }

/-- An active session with an empty roster. -/
def sesMath : Session :=
  { id := "S", courseName := "math", startTime := 0, teacherId := "T1",
    isActive := true, attendance := [] }

/-- The same session after it was closed. -/
def sesMathClosed : Session := { sesMath with isActive := false }

/-- One student, one active session. -/
def dbOne : DB := { students := [stAlice], sessions := [sesMath] }

/-- Two students, one active session. -/
def dbTwo : DB := { students := [stAlice, stBob], sessions := [sesMath] }

/-- One student, one closed session. -/
def dbClosed : DB := { students := [stAlice], sessions := [sesMathClosed] }

/-- A mark request for Alice (unnormalized roll, no display department/section). -/
def reqAlice : MarkRequest :=
  { rollNumber := " a1 ", deviceId := "D1", name := some "Alice", department := none,
    «section» := none }

/-- A mark request for Bob presenting the same device as `reqAlice`. -/
def reqBob : MarkRequest :=
  { rollNumber := "B1", deviceId := "D1", name := some "Bob", department := none,
    «section» := none }

/-- A second active session, opened by another teacher. -/
def sesPhys : Session :=
  { id := "S2", courseName := "phys", startTime := 0, teacherId := "T2",
    isActive := true, attendance := [] }

/-- One student, two active sessions (of different issuers). -/
def dbTwoSessions : DB := { students := [stAlice], sessions := [sesMath, sesPhys] }

/-- A mark request for Alice presenting the empty-string device token. -/
def reqAliceEmptyDevice : MarkRequest :=
  { rollNumber := "A1", deviceId := "", name := some "Alice", department := none,
    «section» := none }

/-- A mark request for Alice presenting device D9. -/
def reqAliceD9 : MarkRequest :=
  { rollNumber := "A1", deviceId := "D9", name := some "Alice", department := none,
    «section» := none }

/-- At most one active session per issuer: any two distinct stored sessions
that are both active belong to different issuers. -/
def activeUnique (sessions : List Session) : Prop :=
  sessions.Pairwise (fun a b => a.isActive = true → b.isActive = true →
    a.teacherId ≠ b.teacherId)

/-- The no-duplicate-roll invariant of one session's roster. -/
def rosterNoDup (s : Session) : Prop :=
  s.attendance.Pairwise (fun a b => a.rollNumber ≠ b.rollNumber)

/-- Every stored session's roster holds each identifier at most once. -/
def dbNoDup (db : DB) : Prop := ∀ s ∈ db.sessions, rosterNoDup s

/-! ### Helper lemmas about the store primitives -/

theorem updateFirst_nil (p : α → Bool) (f : α → α) : updateFirst p f [] = [] := rfl

/-- An element of an updated collection is an untouched old element or the
image of an old element matching the key. -/
theorem mem_updateFirst {p : α → Bool} {f : α → α} {l : List α} {x : α}
    (hx : x ∈ updateFirst p f l) : x ∈ l ∨ ∃ y ∈ l, p y = true ∧ x = f y := by
  induction l with
  | nil => simp [updateFirst] at hx
  | cons a l ih =>
    by_cases hp : p a = true
    · rcases (by simpa [updateFirst, hp] using hx : x = f a ∨ x ∈ l) with h | h
      · exact Or.inr ⟨a, by simp, hp, h⟩
      · exact Or.inl (by simp [h])
    · rcases (by simpa [updateFirst, hp] using hx : x = a ∨ x ∈ updateFirst p f l) with h | h
      · exact Or.inl (by simp [h])
      · rcases ih h with h | ⟨y, hy, hpy, hxy⟩
        · exact Or.inl (by simp [h])
        · exact Or.inr ⟨y, by simp [hy], hpy, hxy⟩

/-- The update of the found record is a member of the updated collection. -/
theorem updateFirst_mem_of_find? {p : α → Bool} {f : α → α} {l : List α} {y : α}
    (h : l.find? p = some y) : f y ∈ updateFirst p f l := by
  induction l with
  | nil => simp [List.find?] at h
  | cons a l ih =>
    by_cases hp : p a = true
    · have : a = y := by simpa [List.find?, hp] using h
      simp [updateFirst, hp, ← this]
    · have h' : l.find? p = some y := by simpa [List.find?, hp] using h
      simp [updateFirst, hp, ih h']

/-- When the update preserves the key, finding by the key after the update
returns the image of the old find. -/
theorem find?_updateFirst {p : α → Bool} {f : α → α} (l : List α)
    (hf : ∀ a, p a = true → p (f a) = true) :
    (updateFirst p f l).find? p = (l.find? p).map f := by
  induction l with
  | nil => simp [updateFirst]
  | cons a l ih =>
    by_cases hp : p a = true
    · simp [updateFirst, List.find?, hp, hf a hp]
    · simp [updateFirst, List.find?, hp, ih]

/-- The update relates pointwise to the original: every record is unchanged,
except possibly the first record matching the key, which becomes its image. -/
theorem forall2_updateFirst {R : α → α → Prop} {p : α → Bool} {f : α → α} {l : List α}
    (hrefl : ∀ x, R x x) (h : ∀ y, l.find? p = some y → R y (f y)) :
    List.Forall₂ R l (updateFirst p f l) := by
  induction l with
  | nil => simp [updateFirst]
  | cons a l ih =>
    by_cases hp : p a = true
    · have ha : R a (f a) := h a (by simp [List.find?, hp])
      exact (by simpa [updateFirst, hp] using
        List.Forall₂.cons ha (List.forall₂_same.mpr (fun x _ => hrefl x)))
    · have h' : ∀ y, l.find? p = some y → R y (f y) := by
        intro y hy
        exact h y (by simpa [List.find?, hp] using hy)
      exact (by simpa [updateFirst, hp] using List.Forall₂.cons (hrefl a) (ih h'))

/-! ### Helper lemmas about the mark handler -/

theorem markF_eq_of_no_active {db : DB} {sid : String} (req : MarkRequest) (now : Nat)
    (f1 f2 : Bool) (h : findActiveSession db sid = none) :
    markAttendanceF db sid req now f1 f2 = (.sessionNotActive, db) := by
  simp [markAttendanceF, h]

theorem markF_eq_of_dup {db : DB} {sid : String} {s : Session} (req : MarkRequest)
    (now : Nat) (f1 f2 : Bool) (hs : findActiveSession db sid = some s)
    (hd : s.attendance.any (fun r => r.rollNumber == normalizeId req.rollNumber) = true) :
    markAttendanceF db sid req now f1 f2 = (.alreadyMarked, db) := by
  simp [markAttendanceF, hs, hd]

theorem markF_eq_of_no_student {db : DB} {sid : String} {s : Session} (req : MarkRequest)
    (now : Nat) (f1 f2 : Bool) (hs : findActiveSession db sid = some s)
    (hd : s.attendance.any (fun r => r.rollNumber == normalizeId req.rollNumber) = false)
    (hst : findStudent db (normalizeId req.rollNumber) = none) :
    markAttendanceF db sid req now f1 f2 = (.unknownIdentity, db) := by
  simp [markAttendanceF, hs, hd, hst]

theorem markF_eq_of_mismatch {db : DB} {sid : String} {s : Session} {student : Student}
    (req : MarkRequest) (now : Nat) (f1 f2 : Bool)
    (hs : findActiveSession db sid = some s)
    (hd : s.attendance.any (fun r => r.rollNumber == normalizeId req.rollNumber) = false)
    (hst : findStudent db (normalizeId req.rollNumber) = some student)
    (hm : deviceMismatch student req.deviceId = true) :
    markAttendanceF db sid req now f1 f2 = (.deviceConflict, db) := by
  simp [markAttendanceF, hs, hd, hst, hm]

theorem markF_eq_of_reuse {db : DB} {sid : String} {s : Session} {student : Student}
    (req : MarkRequest) (now : Nat) (f1 f2 : Bool)
    (hs : findActiveSession db sid = some s)
    (hd : s.attendance.any (fun r => r.rollNumber == normalizeId req.rollNumber) = false)
    (hst : findStudent db (normalizeId req.rollNumber) = some student)
    (hm : deviceMismatch student req.deviceId = false)
    (hr : (findOtherWithDevice db req.deviceId (normalizeId req.rollNumber)).isSome = true) :
    markAttendanceF db sid req now f1 f2 = (.deviceAlreadyUsed, db) := by
  simp [markAttendanceF, hs, hd, hst, hm, hr]

/-- Inversion of a successful admission: every check passed, the session save
did not fail, and the final state is the commit of step 6. -/
theorem markF_success_inv {db : DB} {sid : String} {req : MarkRequest} {now : Nat}
    {f1 f2 : Bool} (h : (markAttendanceF db sid req now f1 f2).1 = .success) :
    ∃ s student,
      findActiveSession db sid = some s ∧
      s.attendance.any (fun r => r.rollNumber == normalizeId req.rollNumber) = false ∧
      findStudent db (normalizeId req.rollNumber) = some student ∧
      deviceMismatch student req.deviceId = false ∧
      (findOtherWithDevice db req.deviceId (normalizeId req.rollNumber)).isSome = false ∧
      f2 = false ∧
      markAttendanceF db sid req now f1 f2 =
        (.success, saveSession
          (if jsFalsy student.deviceId then
            bindDevice db (normalizeId req.rollNumber) req.deviceId else db)
          { s with attendance := s.attendance ++
              [{ rollNumber := normalizeId req.rollNumber, name := req.name,
                 department := req.department, «section» := req.«section»,
                 timestamp := now, deviceId := some req.deviceId }] }) := by
  rcases hs : findActiveSession db sid with _ | s
  · rw [markF_eq_of_no_active req now f1 f2 hs] at h
    exact absurd h (by simp)
  · rcases hd : s.attendance.any (fun r => r.rollNumber == normalizeId req.rollNumber) with _ | _
    · rcases hst : findStudent db (normalizeId req.rollNumber) with _ | student
      · rw [markF_eq_of_no_student req now f1 f2 hs hd hst] at h
        exact absurd h (by simp)
      · rcases hm : deviceMismatch student req.deviceId with _ | _
        · rcases hr : (findOtherWithDevice db req.deviceId (normalizeId req.rollNumber)).isSome with _ | _
          · rcases hb : jsFalsy student.deviceId && f1 with _ | _
            · rcases hf2 : f2 with _ | _
              · refine ⟨s, student, rfl, hd, rfl, hm, rfl, rfl, ?_⟩
                simp [markAttendanceF, hs, hd, hst, hm, hr, hb, hf2]
              · have : markAttendanceF db sid req now f1 f2 =
                    (.internalError,
                      if jsFalsy student.deviceId then
                        bindDevice db (normalizeId req.rollNumber) req.deviceId else db) := by
                  simp [markAttendanceF, hs, hd, hst, hm, hr, hb, hf2]
                rw [this] at h
                exact absurd h (by simp)
            · have : markAttendanceF db sid req now f1 f2 = (.internalError, db) := by
                simp [markAttendanceF, hs, hd, hst, hm, hr, hb]
              rw [this] at h
              exact absurd h (by simp)
          · rw [markF_eq_of_reuse req now f1 f2 hs hd hst hm hr] at h
            exact absurd h (by simp)
        · rw [markF_eq_of_mismatch req now f1 f2 hs hd hst hm] at h
          exact absurd h (by simp)
    · rw [markF_eq_of_dup req now f1 f2 hs hd] at h
      exact absurd h (by simp)

/-- What the mark handler can do to the store: the student collection is
unchanged unless the loaded student had no bound device, in which case that
record (and only that record) gains the presented token; the session
collection is unchanged unless the invocation succeeded. -/
theorem markF_state_shape (db : DB) (sid : String) (req : MarkRequest) (now : Nat)
    (f1 f2 : Bool) :
    ((markAttendanceF db sid req now f1 f2).2.students = db.students ∨
     ∃ student, findStudent db (normalizeId req.rollNumber) = some student ∧
       jsFalsy student.deviceId = true ∧
       (markAttendanceF db sid req now f1 f2).2.students =
         updateFirst (fun st => st.rollNumber == normalizeId req.rollNumber)
           (fun st => { st with deviceId := some req.deviceId }) db.students) ∧
    ((markAttendanceF db sid req now f1 f2).1 ≠ .success →
      (markAttendanceF db sid req now f1 f2).2.sessions = db.sessions) := by
  rcases hs : findActiveSession db sid with _ | s
  · rw [markF_eq_of_no_active req now f1 f2 hs]
    exact ⟨Or.inl rfl, fun _ => rfl⟩
  · rcases hd : s.attendance.any (fun r => r.rollNumber == normalizeId req.rollNumber) with _ | _
    · rcases hst : findStudent db (normalizeId req.rollNumber) with _ | student
      · rw [markF_eq_of_no_student req now f1 f2 hs hd hst]
        exact ⟨Or.inl rfl, fun _ => rfl⟩
      · rcases hm : deviceMismatch student req.deviceId with _ | _
        · rcases hr : (findOtherWithDevice db req.deviceId (normalizeId req.rollNumber)).isSome with _ | _
          · rcases hj : jsFalsy student.deviceId with _ | _
            · cases f2
              · have he : markAttendanceF db sid req now f1 false =
                    (.success, saveSession db
                      { s with attendance := s.attendance ++
                          [{ rollNumber := normalizeId req.rollNumber, name := req.name,
                             department := req.department, «section» := req.«section»,
                             timestamp := now, deviceId := some req.deviceId }] }) := by
                  simp [markAttendanceF, hs, hd, hst, hm, hr, hj]
                rw [he]
                exact ⟨Or.inl rfl, fun h => absurd rfl h⟩
              · have he : markAttendanceF db sid req now f1 true = (.internalError, db) := by
                  simp [markAttendanceF, hs, hd, hst, hm, hr, hj]
                rw [he]
                exact ⟨Or.inl rfl, fun _ => rfl⟩
            · cases f1
              · cases f2
                · have he : markAttendanceF db sid req now false false =
                      (.success, saveSession
                        (bindDevice db (normalizeId req.rollNumber) req.deviceId)
                        { s with attendance := s.attendance ++
                            [{ rollNumber := normalizeId req.rollNumber, name := req.name,
                               department := req.department, «section» := req.«section»,
                               timestamp := now, deviceId := some req.deviceId }] }) := by
                    simp [markAttendanceF, hs, hd, hst, hm, hr, hj]
                  rw [he]
                  exact ⟨Or.inr ⟨student, rfl, hj, rfl⟩, fun h => absurd rfl h⟩
                · have he : markAttendanceF db sid req now false true =
                      (.internalError, bindDevice db (normalizeId req.rollNumber) req.deviceId) := by
                    simp [markAttendanceF, hs, hd, hst, hm, hr, hj]
                  rw [he]
                  exact ⟨Or.inr ⟨student, rfl, hj, rfl⟩, fun _ => rfl⟩
              · have he : markAttendanceF db sid req now true f2 = (.internalError, db) := by
                  simp [markAttendanceF, hs, hd, hst, hm, hr, hj]
                rw [he]
                exact ⟨Or.inl rfl, fun _ => rfl⟩
          · rw [markF_eq_of_reuse req now f1 f2 hs hd hst hm hr]
            exact ⟨Or.inl rfl, fun _ => rfl⟩
        · rw [markF_eq_of_mismatch req now f1 f2 hs hd hst hm]
          exact ⟨Or.inl rfl, fun _ => rfl⟩
    · rw [markF_eq_of_dup req now f1 f2 hs hd]
      exact ⟨Or.inl rfl, fun _ => rfl⟩

/-- With no store failures, every rejected admission leaves the store
exactly as it was. -/
theorem mark_frame_of_ne_success {db : DB} {sid : String} {req : MarkRequest} {now : Nat}
    (h : (markAttendance db sid req now).1 ≠ .success) :
    (markAttendance db sid req now).2 = db := by
  rcases hs : findActiveSession db sid with _ | s
  · rw [markAttendance, markF_eq_of_no_active req now false false hs]
  · rcases hd : s.attendance.any (fun r => r.rollNumber == normalizeId req.rollNumber) with _ | _
    · rcases hst : findStudent db (normalizeId req.rollNumber) with _ | student
      · rw [markAttendance, markF_eq_of_no_student req now false false hs hd hst]
      · rcases hm : deviceMismatch student req.deviceId with _ | _
        · rcases hr : (findOtherWithDevice db req.deviceId (normalizeId req.rollNumber)).isSome with _ | _
          · exact absurd (by simp [markAttendance, markAttendanceF, hs, hd, hst, hm, hr]) h
          · rw [markAttendance, markF_eq_of_reuse req now false false hs hd hst hm hr]
        · rw [markAttendance, markF_eq_of_mismatch req now false false hs hd hst hm]
    · rw [markAttendance, markF_eq_of_dup req now false false hs hd]

/-- Saving a session document whose id names a stored session puts the saved
document in the stored collection. -/
theorem saveSession_mem (db : DB) {s : Session} (newS : Session) (hid : newS.id = s.id)
    (hmem : s ∈ db.sessions) : newS ∈ (saveSession db newS).sessions := by
  rcases hy : db.sessions.find? (fun t => t.id == newS.id) with _ | y
  · rw [List.find?_eq_none] at hy
    exact absurd (by simp [hid]) (hy s hmem)
  · simpa [saveSession] using updateFirst_mem_of_find? (f := fun _ => newS) hy

/-- Inversion of a successful admission in the part_007 variant. -/
theorem markV_success_inv {db : DB} {sid : String} {req : MarkRequest} {now : Nat}
    (h : (markAttendanceV db sid req now).1 = .success) :
    ∃ s student nm,
      findActiveSession db sid = some s ∧
      s.attendance.any (fun r => r.rollNumber == normalizeId req.rollNumber) = false ∧
      findStudent db (normalizeId req.rollNumber) = some student ∧
      deviceMismatch student req.deviceId = false ∧
      (findOtherWithDevice db req.deviceId (normalizeId req.rollNumber)).isSome = false ∧
      req.name = some nm ∧
      markAttendanceV db sid req now =
        (.success, saveSession
          (if jsFalsy student.deviceId then
            bindDevice db (normalizeId req.rollNumber) req.deviceId else db)
          { s with attendance := s.attendance ++
              [{ rollNumber := normalizeId req.rollNumber, name := some (trimStr nm),
                 department := jsOr req.department student.department,
                 «section» := jsOr req.«section» student.«section»,
                 timestamp := now, deviceId := some req.deviceId }] }) := by
  rcases hs : findActiveSession db sid with _ | s
  · simp [markAttendanceV, hs] at h
  · rcases hd : s.attendance.any (fun r => r.rollNumber == normalizeId req.rollNumber) with _ | _
    · rcases hst : findStudent db (normalizeId req.rollNumber) with _ | student
      · simp [markAttendanceV, hs, hd, hst] at h
      · rcases hm : deviceMismatch student req.deviceId with _ | _
        · rcases hr : (findOtherWithDevice db req.deviceId (normalizeId req.rollNumber)).isSome with _ | _
          · rcases hnm : req.name with _ | nm
            · simp [markAttendanceV, hs, hd, hst, hm, hr, hnm] at h
            · refine ⟨s, student, nm, rfl, hd, rfl, hm, rfl, rfl, ?_⟩
              simp [markAttendanceV, hs, hd, hst, hm, hr, hnm]
          · simp [markAttendanceV, hs, hd, hst, hm, hr] at h
        · simp [markAttendanceV, hs, hd, hst, hm] at h
    · simp [markAttendanceV, hs, hd] at h

/-! ### Claim theorems -/

/-- C1: the mark endpoint applies its admission checks in the fixed order
active-session, duplicate, identity-existence, device-binding, device-reuse,
short-circuits at the first failing check with that check's specific failure
reason, and any outcome other than success leaves the store untouched (only
the step-6 commit mutates state). -/
theorem mark_check_order_and_frame (db : DB) (sid : String) (req : MarkRequest) (now : Nat) :
    (findActiveSession db sid = none →
      markAttendance db sid req now = (.sessionNotActive, db)) ∧
    (∀ s, findActiveSession db sid = some s →
      s.attendance.any (fun r => r.rollNumber == normalizeId req.rollNumber) = true →
      markAttendance db sid req now = (.alreadyMarked, db)) ∧
    (∀ s, findActiveSession db sid = some s →
      s.attendance.any (fun r => r.rollNumber == normalizeId req.rollNumber) = false →
      findStudent db (normalizeId req.rollNumber) = none →
      markAttendance db sid req now = (.unknownIdentity, db)) ∧
    (∀ s student, findActiveSession db sid = some s →
      s.attendance.any (fun r => r.rollNumber == normalizeId req.rollNumber) = false →
      findStudent db (normalizeId req.rollNumber) = some student →
      deviceMismatch student req.deviceId = true →
      markAttendance db sid req now = (.deviceConflict, db)) ∧
    (∀ s student, findActiveSession db sid = some s →
      s.attendance.any (fun r => r.rollNumber == normalizeId req.rollNumber) = false →
      findStudent db (normalizeId req.rollNumber) = some student →
      deviceMismatch student req.deviceId = false →
      (findOtherWithDevice db req.deviceId (normalizeId req.rollNumber)).isSome = true →
      markAttendance db sid req now = (.deviceAlreadyUsed, db)) ∧
    ((markAttendance db sid req now).1 ≠ .success →
      (markAttendance db sid req now).2 = db) := by
  refine ⟨?_, ?_, ?_, ?_, ?_, ?_⟩
  · exact fun h => markF_eq_of_no_active req now false false h
  · exact fun s hs hd => markF_eq_of_dup req now false false hs hd
  · exact fun s hs hd hst => markF_eq_of_no_student req now false false hs hd hst
  · exact fun s student hs hd hst hm => markF_eq_of_mismatch req now false false hs hd hst hm
  · exact fun s student hs hd hst hm hr => markF_eq_of_reuse req now false false hs hd hst hm hr
  · exact mark_frame_of_ne_success

/-- C8 counterexample: the code answers the duplicate with the bad-request
status 400, not the HTTP conflict status 409 that the spec's conflict class
names. -/
theorem alreadyMarked_status_not_conflict :
    httpStatusOf .alreadyMarked = 400 ∧ specStatusOf .alreadyMarked = 409 ∧
    httpStatusOf .alreadyMarked ≠ specStatusOf .alreadyMarked := by decide

/-- C8 amended: SessionNotActive and UnknownIdentity map to the not-found
status 404, AlreadyMarked to the bad-request status 400 (not the HTTP
conflict status), DeviceConflict and DeviceAlreadyUsedBy to the forbidden
status 403, and the three classes are pairwise distinct. -/
theorem mark_status_classes :
    httpStatusOf .sessionNotActive = 404 ∧ httpStatusOf .unknownIdentity = 404 ∧
    httpStatusOf .alreadyMarked = 400 ∧
    httpStatusOf .deviceConflict = 403 ∧ httpStatusOf .deviceAlreadyUsed = 403 ∧
    httpStatusOf .sessionNotActive ≠ httpStatusOf .alreadyMarked ∧
    httpStatusOf .sessionNotActive ≠ httpStatusOf .deviceConflict ∧
    httpStatusOf .alreadyMarked ≠ httpStatusOf .deviceConflict ∧
    specStatusOf .sessionNotActive = 404 ∧ specStatusOf .unknownIdentity = 404 ∧
    specStatusOf .deviceConflict = 403 ∧ specStatusOf .deviceAlreadyUsed = 403 := by decide

/-- C9: when no session with the given id is active — whether the id names a
closed session or no session at all — the mark endpoint answers the same
SessionNotActive failure (404) and leaves the store unchanged; the single
`findOne({ id, isActive: true })` query makes the two cases
indistinguishable. -/
theorem mark_missing_and_inactive_agree (db : DB) (sid : String) (req : MarkRequest)
    (now : Nat) (f1 f2 : Bool)
    (h : ∀ s ∈ db.sessions, s.id = sid → s.isActive = false) :
    markAttendanceF db sid req now f1 f2 = (.sessionNotActive, db) ∧
    httpStatusOf .sessionNotActive = 404 := by
  have hnone : findActiveSession db sid = none := by
    rw [findActiveSession, List.find?_eq_none]
    intro s hsmem hps
    have hid : s.id = sid := by
      have := (Bool.and_eq_true _ _).mp hps
      simpa using this.1
    have := (Bool.and_eq_true _ _).mp hps
    have : s.isActive = true := by simpa using this.2
    rw [h s hsmem hid] at this
    cases this
  exact ⟨markF_eq_of_no_active req now f1 f2 hnone, rfl⟩

/-- C9 witness: marking against the closed session of `dbClosed`. -/
theorem mark_missing_and_inactive_agree_witness :
    markAttendanceF dbClosed "S" reqAlice 7 false false = (.sessionNotActive, dbClosed) ∧
    httpStatusOf .sessionNotActive = 404 :=
  mark_missing_and_inactive_agree dbClosed "S" reqAlice 7 false false (by decide)

/-- C10: while the login lock is set, every student-role attempt is rejected
with the locked error before any credential lookup; a teacher-portal attempt
matching an admin record succeeds as ADMIN despite the lock; a teacher-portal
attempt matching no admin record is rejected with the locked error before the
teacher credential lookup. -/
theorem login_lock_policy (db : AuthDB) (isLocked : Bool) (role identifier password : String) :
    (role = "STUDENT" → isLocked = true → identifier ≠ "" → password ≠ "" →
      login db isLocked role identifier password = .systemLocked) ∧
    (∀ u, role ≠ "STUDENT" →
      db.admins.find? (fun a => a.identifier == normalizeId identifier &&
        a.password == trimStr password) = some u →
      identifier ≠ "" → password ≠ "" →
      login db isLocked role identifier password =
        .success u.name "ADMIN" (normalizeId identifier)) ∧
    (role ≠ "STUDENT" → isLocked = true →
      db.admins.find? (fun a => a.identifier == normalizeId identifier &&
        a.password == trimStr password) = none →
      identifier ≠ "" → password ≠ "" →
      login db isLocked role identifier password = .systemLocked) := by
  refine ⟨?_, ?_, ?_⟩
  · intro hrole hl hid hpw
    simp [login, hid, hpw, hrole, hl]
  · intro u hrole hfind hid hpw
    simp [login, hid, hpw, hrole, hfind]
  · intro hrole hl hfind hid hpw
    simp [login, hid, hpw, hrole, hfind, hl]

/-- C2 failing interleaving: with no lock or conditional update, two
invocations that both read before either writes both pass every check; both
answer success (neither observes AlreadyMarked), the same roll number is
appended twice, and the same fresh device token is bound to two different
students. -/
theorem mark_race_not_serialized :
    (markPairRRWW dbOne "S" reqAlice reqAlice 7 8).1 = .success ∧
    (markPairRRWW dbOne "S" reqAlice reqAlice 7 8).2.1 = .success ∧
    ((markPairRRWW dbOne "S" reqAlice reqAlice 7 8).2.2.sessions.head?.getD sesMath).attendance.map
      (fun r => r.rollNumber) = ["A1", "A1"] ∧
    (markPairRRWW dbTwo "S" reqAlice reqBob 7 8).1 = .success ∧
    (markPairRRWW dbTwo "S" reqAlice reqBob 7 8).2.1 = .success ∧
    (markPairRRWW dbTwo "S" reqAlice reqBob 7 8).2.2.students.map (fun st => st.deviceId) =
      [some "D1", some "D1"] := by decide

/-- C3 counterexample: when `session.save()` fails after `student.save()`
succeeded, the invocation does not return success, yet a device binding was
newly created (Alice is now bound to D1) while no attendance entry was
appended — the binding and the append did not happen together. -/
theorem mark_binding_without_append :
    (markAttendanceF dbOne "S" reqAlice 7 false true).1 = .internalError ∧
    dbOne.students.map (fun st => st.deviceId) = [none] ∧
    (markAttendanceF dbOne "S" reqAlice 7 false true).2.students.map (fun st => st.deviceId) =
      [some "D1"] ∧
    ((markAttendanceF dbOne "S" reqAlice 7 false true).2.sessions.head?.getD sesMath).attendance
      = [] := by decide

/-- C4 counterexample: the main controller appends the request's display
fields verbatim — the request carries no department, Alice's record has
department CSE, yet the appended entry's department is empty (no fallback). -/
theorem mark_entry_ignores_student_department :
    (markAttendance dbOne "S" reqAlice 7).1 = .success ∧
    reqAlice.department = none ∧
    (findStudent dbOne "A1").map (fun st => st.department) = some (some "CSE") ∧
    ((markAttendance dbOne "S" reqAlice 7).2.sessions.head?.getD sesMath).attendance.map
      (fun r => r.department) = [none] := by decide

/-- C3 amended: append is the final point-of-no-return step — an invocation
that does not return success never appends an attendance entry (the session
collection is untouched, including under store failures during commit), and
a successful invocation leaves the marked student bound to the presented
device; a device binding, however, may be newly created and persist even
though the append then fails (see the counterexample). -/
theorem mark_append_point_of_no_return (db : DB) (sid : String) (req : MarkRequest)
    (now : Nat) (f1 f2 : Bool) :
    ((markAttendanceF db sid req now f1 f2).1 ≠ .success →
      (markAttendanceF db sid req now f1 f2).2.sessions = db.sessions) ∧
    ((markAttendanceF db sid req now f1 f2).1 = .success →
      ∃ st, findStudent (markAttendanceF db sid req now f1 f2).2 (normalizeId req.rollNumber)
          = some st ∧ st.deviceId = some req.deviceId) := by
  refine ⟨(markF_state_shape db sid req now f1 f2).2, ?_⟩
  intro h
  obtain ⟨s, student, hs, hd, hst, hm, hr, hf2, he⟩ := markF_success_inv h
  rw [he]
  rcases hj : jsFalsy student.deviceId with _ | _
  · rcases hn : student.deviceId with _ | d
    · rw [hn] at hj
      simp [jsFalsy] at hj
    · have hne : d ≠ "" := by
        rw [hn] at hj
        simpa [jsFalsy] using hj
      have hm' := hm
      simp [deviceMismatch, hn] at hm'
      have h1 : d = req.deviceId := hm' hne
      refine ⟨student, ?_, by rw [hn, h1]⟩
      simp only [Bool.false_eq_true, if_false]
      exact hst
  · refine ⟨{ student with deviceId := some req.deviceId }, ?_, rfl⟩
    have hp : ∀ a : Student, (a.rollNumber == normalizeId req.rollNumber) = true →
        (({ a with deviceId := some req.deviceId } : Student).rollNumber ==
          normalizeId req.rollNumber) = true := fun a ha => ha
    simp only [if_pos]
    show (updateFirst (fun st => st.rollNumber == normalizeId req.rollNumber)
        (fun st => { st with deviceId := some req.deviceId }) db.students).find?
        (fun st => st.rollNumber == normalizeId req.rollNumber) = _
    rw [find?_updateFirst db.students hp]
    rw [show db.students.find? (fun st => st.rollNumber == normalizeId req.rollNumber)
        = some student from hst]
    rfl

/-- C4 amended: the main controller appends the entry with the request's
display fields verbatim (no fallback to the identity record) and
timestamp = now; the fallback of department/section to the identity record —
and the trimming of the name — exist only in the part_007 variant of the
controller. -/
theorem mark_entry_display_fields (db : DB) (sid : String) (req : MarkRequest) (now : Nat) :
    ((markAttendance db sid req now).1 = .success →
      ∀ s, findActiveSession db sid = some s →
        ({ s with attendance := s.attendance ++
            [{ rollNumber := normalizeId req.rollNumber, name := req.name,
               department := req.department, «section» := req.«section»,
               timestamp := now, deviceId := some req.deviceId }] } : Session)
          ∈ (markAttendance db sid req now).2.sessions) ∧
    ((markAttendanceV db sid req now).1 = .success →
      ∀ s student nm, findActiveSession db sid = some s →
        findStudent db (normalizeId req.rollNumber) = some student →
        req.name = some nm →
        ({ s with attendance := s.attendance ++
            [{ rollNumber := normalizeId req.rollNumber, name := some (trimStr nm),
               department := jsOr req.department student.department,
               «section» := jsOr req.«section» student.«section»,
               timestamp := now, deviceId := some req.deviceId }] } : Session)
          ∈ (markAttendanceV db sid req now).2.sessions) := by
  constructor
  · intro h s hsgiven
    simp only [markAttendance] at h ⊢
    obtain ⟨s0, student, hs, hd, hst, hm, hr, hf2, he⟩ := markF_success_inv h
    have hss : s0 = s := by
      have := hs.symm.trans hsgiven
      exact Option.some.inj this
    subst hss
    rw [he]
    have hmem : s0 ∈ db.sessions := List.mem_of_find?_eq_some hs
    have hfix : (if jsFalsy student.deviceId then
        bindDevice db (normalizeId req.rollNumber) req.deviceId else db).sessions
        = db.sessions := by
      by_cases hb : jsFalsy student.deviceId = true <;> simp [hb, bindDevice]
    refine ?_
    have := saveSession_mem
      (if jsFalsy student.deviceId then
        bindDevice db (normalizeId req.rollNumber) req.deviceId else db)
      (s := s0)
      ({ s0 with attendance := s0.attendance ++
          [{ rollNumber := normalizeId req.rollNumber, name := req.name,
             department := req.department, «section» := req.«section»,
             timestamp := now, deviceId := some req.deviceId }] }) rfl
      (by rw [show (if jsFalsy student.deviceId then
            bindDevice db (normalizeId req.rollNumber) req.deviceId else db).sessions
            = db.sessions from hfix]; exact hmem)
    exact this
  · intro h s student nm hsgiven hstgiven hnmgiven
    obtain ⟨s0, student0, nm0, hs, hd, hst, hm, hr, hnm, he⟩ := markV_success_inv h
    have hss : s0 = s := Option.some.inj (hs.symm.trans hsgiven)
    have hstu : student0 = student := Option.some.inj (hst.symm.trans hstgiven)
    have hnm2 : nm0 = nm := Option.some.inj (hnm.symm.trans hnmgiven)
    subst hss hstu hnm2
    rw [he]
    have hmem : s0 ∈ db.sessions := List.mem_of_find?_eq_some hs
    have hfix : (if jsFalsy student0.deviceId then
        bindDevice db (normalizeId req.rollNumber) req.deviceId else db).sessions
        = db.sessions := by
      by_cases hb : jsFalsy student0.deviceId = true <;> simp [hb, bindDevice]
    exact saveSession_mem
      (if jsFalsy student0.deviceId then
        bindDevice db (normalizeId req.rollNumber) req.deviceId else db)
      (s := s0)
      ({ s0 with attendance := s0.attendance ++
          [{ rollNumber := normalizeId req.rollNumber, name := some (trimStr nm0),
             department := jsOr req.department student0.department,
             «section» := jsOr req.«section» student0.«section»,
             timestamp := now, deviceId := some req.deviceId }] }) rfl
      (by rw [show (if jsFalsy student0.deviceId then
            bindDevice db (normalizeId req.rollNumber) req.deviceId else db).sessions
            = db.sessions from hfix]; exact hmem)

/-- Opening a session preserves the one-active-session-per-issuer invariant:
the new session is the only active one of its issuer, and other issuers'
sessions are untouched. -/
theorem open_preserves_activeUnique (sessions : List Session) (issuer label : String)
    (now : Nat) (h : activeUnique sessions) :
    activeUnique (openSession sessions issuer label now) := by
  rw [activeUnique, openSession, List.pairwise_append]
  refine ⟨?_, by simp, ?_⟩
  · rw [List.pairwise_map]
    refine h.imp ?_
    intro a b hab h1 h2
    by_cases ha : (a.teacherId == issuer) = true
    · simp [ha] at h1
    · by_cases hb : (b.teacherId == issuer) = true
      · simp [hb] at h2
      · simp [ha, hb] at h1 h2 ⊢
        exact hab h1 h2
  · intro a hamem b hbmem h1 _
    obtain ⟨x, hx, rfl⟩ := List.mem_map.mp hamem
    have hb : b.teacherId = issuer := by
      simp at hbmem
      rw [hbmem]
    by_cases hx2 : (x.teacherId == issuer) = true
    · simp [hx2] at h1
    · simp [hx2] at h1 ⊢
      rw [hb]
      intro heq
      exact hx2 (by simp [heq])

/-- One (possibly failing) admission preserves roster uniqueness in every
stored session: the duplicate check refuses a roll already on the roster,
and a committed entry carries the normalized roll it was checked under. -/
theorem markF_preserves_dbNoDup (db : DB) (sid : String) (req : MarkRequest)
    (now : Nat) (f1 f2 : Bool) (h : dbNoDup db) :
    dbNoDup (markAttendanceF db sid req now f1 f2).2 := by
  by_cases hsucc : (markAttendanceF db sid req now f1 f2).1 = .success
  · obtain ⟨s, student, hs, hd, hst, hm, hr, hf2, he⟩ := markF_success_inv hsucc
    rw [he]
    intro s2 hs2
    have hfix : (if jsFalsy student.deviceId then
        bindDevice db (normalizeId req.rollNumber) req.deviceId else db).sessions
        = db.sessions := by
      by_cases hb : jsFalsy student.deviceId = true <;> simp [hb, bindDevice]
    rw [show ((saveSession
        (if jsFalsy student.deviceId then
          bindDevice db (normalizeId req.rollNumber) req.deviceId else db)
        { s with attendance := s.attendance ++
            [{ rollNumber := normalizeId req.rollNumber, name := req.name,
               department := req.department, «section» := req.«section»,
               timestamp := now, deviceId := some req.deviceId }] }).sessions)
        = updateFirst (fun t => t.id == s.id) (fun _ =>
            { s with attendance := s.attendance ++
                [{ rollNumber := normalizeId req.rollNumber, name := req.name,
                   department := req.department, «section» := req.«section»,
                   timestamp := now, deviceId := some req.deviceId }] }) db.sessions
        from by rw [saveSession]; exact congrArg _ hfix] at hs2
    rcases mem_updateFirst hs2 with hold | ⟨y, hy, hpy, rfl⟩
    · exact h s2 hold
    · rw [rosterNoDup]
      show ((s.attendance ++ [_]).Pairwise _)
      rw [List.pairwise_append]
      have hmem : s ∈ db.sessions := List.mem_of_find?_eq_some hs
      refine ⟨h s hmem, by simp, ?_⟩
      intro a hamem b hbmem
      have hb : b =
          { rollNumber := normalizeId req.rollNumber, name := req.name,
            department := req.department, «section» := req.«section»,
            timestamp := now, deviceId := some req.deviceId } := by
        simpa using hbmem
      subst hb
      have := (List.any_eq_false.mp hd) a hamem
      simpa using this
  · intro s2 hs2
    rw [(markF_state_shape db sid req now f1 f2).2 hsucc] at hs2
    exact h s2 hs2

/-! ### Remaining claim theorems -/

/-- C5: Open creates a new active session for the issuer, deactivates every
other session owned by that issuer — leaving the issuer exactly one active
session — and after any sequence of Open calls the store keeps at most one
active session per issuer. -/
theorem open_session_lifecycle (sessions : List Session) (issuer label : String)
    (now : Nat) (calls : List (String × String × Nat)) :
    (∃ s ∈ openSession sessions issuer label now,
      s.teacherId = issuer ∧ s.isActive = true ∧ s.courseName = label) ∧
    (∀ s ∈ sessions, s.teacherId = issuer →
      ({ s with isActive := false } : Session) ∈ openSession sessions issuer label now) ∧
    (((openSession sessions issuer label now).filter
        (fun s => s.teacherId == issuer && s.isActive)).length = 1) ∧
    (activeUnique sessions → activeUnique (openAll sessions calls)) := by
  refine ⟨?_, ?_, ?_, ?_⟩
  · refine ⟨{ id := "session_" ++ toString now, courseName := label, startTime := now,
              teacherId := issuer, isActive := true, attendance := [] }, ?_, rfl, rfl, rfl⟩
    rw [openSession]
    exact List.mem_append_right _ (by simp)
  · intro s hsmem hsid
    rw [openSession]
    refine List.mem_append_left _ ?_
    have : ({ s with isActive := false } : Session) =
        (if s.teacherId == issuer then { s with isActive := false } else s) := by
      simp [hsid]
    rw [this]
    exact List.mem_map_of_mem _ hsmem
  · rw [openSession, List.filter_append]
    have h1 : (sessions.map (fun s =>
        if s.teacherId == issuer then { s with isActive := false } else s)).filter
        (fun s => s.teacherId == issuer && s.isActive) = [] := by
      rw [List.filter_eq_nil_iff]
      intro a hamem
      obtain ⟨x, hx, rfl⟩ := List.mem_map.mp hamem
      by_cases hx2 : (x.teacherId == issuer) = true
      · simp [hx2]
      · simp [hx2]
    rw [h1]
    simp
  · intro h
    induction calls generalizing sessions with
    | nil => exact h
    | cons c rest ih =>
      exact ih (openSession sessions c.1 c.2.1 c.2.2)
        (open_preserves_activeUnique sessions c.1 c.2.1 c.2.2 h)

/-- C6: starting from a store whose rosters hold each identifier at most
once, any sequence of admissions (store failures included) preserves the
invariant: no session ends up with two attendance entries sharing the same
normalized identifier. -/
theorem mark_all_roster_no_dup (ops : List (String × MarkRequest × Nat × Bool × Bool))
    (db : DB) (h : dbNoDup db) : dbNoDup (markAll db ops) := by
  induction ops generalizing db with
  | nil => exact h
  | cons o rest ih =>
    exact ih (markAttendanceF db o.1 o.2.1 o.2.2.1 o.2.2.2.1 o.2.2.2.2).2
      (markF_preserves_dbNoDup db o.1 o.2.1 o.2.2.1 o.2.2.2.1 o.2.2.2.2 h)

/-- C6 witness: three admissions — Alice, Alice again, Bob — against the
two-student store. -/
theorem mark_all_roster_no_dup_witness :
    dbNoDup (markAll dbTwo
      [("S", reqAlice, 7, false, false), ("S", reqAlice, 8, false, false),
       ("S", reqBob, 9, false, false)]) :=
  mark_all_roster_no_dup
    [("S", reqAlice, 7, false, false), ("S", reqAlice, 8, false, false),
     ("S", reqBob, 9, false, false)] dbTwo
    (by unfold dbNoDup rosterNoDup; decide)

/-- C7 amended: a mark invocation never changes a bound non-empty device
token — every student record holding a truthy token survives any admission
unchanged, because the controller binds only a record whose token is missing
or the JavaScript-falsy empty string — while the administrative reset
operation at most clears the token of the addressed record and changes
nothing else.  A record holding the empty-string token counts as unbound and
can be silently rebound (see the counterexample). -/
theorem device_nonempty_binding_immutable (db : DB) (sid : String) (req : MarkRequest)
    (now : Nat) (f1 f2 : Bool) (idParam : String) :
    List.Forall₂ (fun st st2 => ∀ d, st.deviceId = some d → d ≠ "" → st2 = st)
      db.students (markAttendanceF db sid req now f1 f2).2.students ∧
    List.Forall₂ (fun st st2 => st2 = st ∨
        (st.rollNumber = upperStr idParam ∧ st2 = { st with deviceId := none }))
      db.students (resetDevice db idParam).students := by
  constructor
  · rcases (markF_state_shape db sid req now f1 f2).1 with heq | ⟨student, hst, hn, heq⟩
    · rw [heq]
      exact List.forall₂_same.mpr (fun x _ d _ _ => rfl)
    · rw [heq]
      refine forall2_updateFirst (fun x d _ _ => rfl) ?_
      intro y hy
      have hys : y = student := Option.some.inj (hy.symm.trans hst)
      subst hys
      intro d hd hne
      rw [hd] at hn
      exact absurd (by simpa [jsFalsy] using hn) hne
  · show List.Forall₂ _ db.students (updateFirst _ _ db.students)
    refine forall2_updateFirst (fun x => Or.inl rfl) ?_
    intro y hy
    have hp := List.find?_some hy
    exact Or.inr ⟨by simpa using hp, rfl⟩

/-- C7 counterexample: marking with an empty-string device token stores ""
in Alice's deviceId field (line 208's `!student.deviceId` is true); a later
mark in another session presenting D9 skips the conflict check (line 206's
`student.deviceId && ...` is falsy on "") and rebinds the record from
some "" to some "D9" — a set device token changed by markAttendance with no
administrative reset. -/
theorem empty_device_token_rebound :
    (markAttendance dbTwoSessions "S" reqAliceEmptyDevice 5).1 = .success ∧
    (markAttendance dbTwoSessions "S" reqAliceEmptyDevice 5).2.students.map
      (fun st => st.deviceId) = [some ""] ∧
    (markAttendance (markAttendance dbTwoSessions "S" reqAliceEmptyDevice 5).2
      "S2" reqAliceD9 6).1 = .success ∧
    (markAttendance (markAttendance dbTwoSessions "S" reqAliceEmptyDevice 5).2
      "S2" reqAliceD9 6).2.students.map (fun st => st.deviceId) = [some "D9"] := by
  decide

end SmartAttendance
